import Mathlib

/-!
Shallow embedding of the MoeFlavor onboarding portal core logic.

Sources:
- src/src/components/QuizViewer.tsx : the quiz viewer (fetch, scoring,
  submit/finish) and the portal component (completion sets, unlock
  predicates, total progress).
- src/src/components/PixelParkLanding.tsx : the landing-scene movement
  and collision engine (obstacles, bounds, portal trigger zone).

JavaScript Sets of ids are modelled as duplicate-free ordered lists of
strings with membership via List.contains; JS numbers used here are
integers (positions move in steps of 2) except the quiz score and the
progress percentage, where the division is modelled over the rationals.
Fallible code paths (an out-of-range array access whose result is then
dereferenced) are modelled with Option, none marking the crash.
-/

namespace Onboarding

/-! ### Curriculum data model (interfaces in QuizViewer.tsx, portal part) -/

structure Lesson where
  id : String
  number : Nat
  title : String
  duration : String
  contentType : String
  deriving DecidableEq

structure Quiz where
  id : String
  title : String
  passingScore : Nat
  required : Bool
  deriving DecidableEq

structure Module where
  id : String
  number : Nat
  title : String
  description : String
  icon : String
  lessons : List Lesson
  quiz : Option Quiz
  deriving DecidableEq

structure Phase where
  id : String
  number : Nat
  title : String
  description : String
  modules : List Module
  deriving DecidableEq

structure QuizQuestion where
  id : String
  number : Nat
  question : String
  optionA : String
  optionB : String
  optionC : String
  optionD : String
  correctAnswer : String
  deriving DecidableEq

/-- Adding an element to a JS Set via new Set([...prev, x]): membership
and insertion order are preserved, duplicates are not added. -/
def setAdd (s : List String) (x : String) : List String :=
  if s.contains x then s else s ++ [x]

/-- The completion-tracking state owned by the portal component. -/
structure PortalState where
  completedLessons : List String
  completedQuizzes : List String
  currentLesson : Option String
  currentQuiz : Option String
  deriving DecidableEq

/-- handleLessonComplete from QuizViewer.tsx (portal part). -/
def handleLessonComplete (st : PortalState) (lessonId : String) : PortalState :=
  { st with completedLessons := setAdd st.completedLessons lessonId,
            currentLesson := none }

/-- handleQuizComplete from QuizViewer.tsx (portal part): the quiz id is
recorded only when passed; currentQuiz is cleared either way. -/
def handleQuizComplete (st : PortalState) (quizId : String) (passed : Bool) : PortalState :=
  if passed then
    { st with completedQuizzes := setAdd st.completedQuizzes quizId,
              currentQuiz := none }
  else
    { st with currentQuiz := none }

/-- Array.prototype.findIndex, with none in place of the JS result -1. -/
def findIdxO {α : Type} (p : α → Bool) : List α → Option Nat
  | [] => none
  | a :: l => if p a then some 0 else (findIdxO p l).map (fun i => i + 1)

/-- isLessonUnlocked from QuizViewer.tsx. When findIndex yields -1 the
source reads module.lessons[-2].id, a dereference of undefined; that
crash is modelled as none. -/
def isLessonUnlocked (completedLessons : List String) (lesson : Lesson) (m : Module) :
    Option Bool :=
  match findIdxO (fun l => l.id == lesson.id) m.lessons with
  | none => none
  | some 0 => some true
  | some (i + 1) =>
    match m.lessons.get? i with
    | some previousLesson => some (completedLessons.contains previousLesson.id)
    | none => none

/-- isQuizUnlocked from QuizViewer.tsx: every lesson of the module must
be in the completed-lessons set. -/
def isQuizUnlocked (completedLessons : List String) (m : Module) : Bool :=
  m.lessons.all (fun lesson => completedLessons.contains lesson.id)

/-! ### Quiz scoring (QuizViewer.tsx, quiz component) -/

/-- The forEach counting loop in handleSubmit: answers is the JS record
of chosen options, looked up by question id; a missing answer compares
unequal to the correct one. -/
def countCorrect (questions : List QuizQuestion) (answers : List (String × String)) : Nat :=
  questions.foldl
    (fun correct q => if answers.lookup q.id == some q.correctAnswer then correct + 1 else correct)
    0

/-- handleSubmit from QuizViewer.tsx: percentage = (correct / questions.length) * 100. -/
def handleSubmit (questions : List QuizQuestion) (answers : List (String × String)) : ℚ :=
  ((countCorrect questions answers : ℚ) / (questions.length : ℚ)) * 100

/-- handleFinish from QuizViewer.tsx: passed = score >= 70, reported to
the portal through onComplete. The per-quiz passingScore field is not
consulted. -/
def handleFinish (score : ℚ) : Bool :=
  decide (70 ≤ score)

/-! ### Total progress (QuizViewer.tsx, portal part) -/

/-- The body of the module-level forEach in getTotalProgress, threading
the pair (totalItems, completedItems). -/
def moduleStep (cl cq : List String) (acc : Nat × Nat) (m : Module) : Nat × Nat :=
  let totalItems := acc.1 + m.lessons.length + (match m.quiz with | some _ => 1 | none => 0)
  let completedItems :=
    m.lessons.foldl (fun c lesson => if cl.contains lesson.id then c + 1 else c) acc.2
  let completedItems :=
    match m.quiz with
    | some qz => if cq.contains qz.id then completedItems + 1 else completedItems
    | none => completedItems
  (totalItems, completedItems)

/-- getTotalProgress from QuizViewer.tsx. -/
def getTotalProgress (cl cq : List String) (phases : List Phase) : ℚ :=
  let acc := phases.foldl (fun a phase => phase.modules.foldl (moduleStep cl cq) a)
    (((0 : Nat), (0 : Nat)))
  if acc.1 > 0 then ((acc.2 : ℚ) / (acc.1 : ℚ)) * 100 else 0

/-- Modelled from the words of the spec for comparison: the number of
progress items a module contributes (lesson count, plus 1 for a quiz). -/
def moduleTotal (m : Module) : Nat :=
  m.lessons.length + (match m.quiz with | some _ => 1 | none => 0)

/-- Modelled from the words of the spec for comparison: the number of
completed items of one module. -/
def moduleDone (cl cq : List String) (m : Module) : Nat :=
  m.lessons.countP (fun lesson => cl.contains lesson.id) +
    (match m.quiz with
     | some qz => if cq.contains qz.id then 1 else 0
     | none => 0)

/-- Total item count of the whole curriculum tree, as a sum. -/
def totalCount (phases : List Phase) : Nat :=
  (phases.map (fun phase => (phase.modules.map moduleTotal).sum)).sum

/-- Completed item count of the whole curriculum tree, as a sum. -/
def doneCount (cl cq : List String) (phases : List Phase) : Nat :=
  (phases.map (fun phase => (phase.modules.map (moduleDone cl cq)).sum)).sum

/-! ### Movement and collision engine (PixelParkLanding.tsx) -/

structure Position where
  x : Int
  y : Int
  deriving DecidableEq

structure Rect where
  x : Int
  y : Int
  width : Int
  height : Int
  deriving DecidableEq

/-- The obstacle list of the landing scene. -/
def obstacles : List Rect :=
  [ { x := 60 - 30, y := 142, width := 60, height := 100 },
    { x := 546 - 30, y := 142, width := 60, height := 100 },
    { x := 170, y := 212, width := 54, height := 40 },
    { x := 486, y := 212, width := 54, height := 40 },
    { x := 230, y := 213, width := 90, height := 40 },
    { x := 310, y := 213, width := 85, height := 40 },
    { x := 546, y := 213, width := 103, height := 40 } ]

/-- The portal trigger zone. -/
def portalZone : Rect := { x := 280, y := 180, width := 66, height := 80 }

/-- checkCollision from PixelParkLanding.tsx, with the obstacle list a
parameter (the source iterates over the obstacles array). -/
def checkCollision (obstaclesL : List Rect) (newX newY : Int) : Bool :=
  let characterBox : Rect := { x := newX - 8, y := newY - 16, width := 16, height := 24 }
  if newX < 20 ∨ newX > 606 ∨ newY < 100 ∨ newY > 240 then
    true
  else
    obstaclesL.any (fun obstacle =>
      decide (characterBox.x < obstacle.x + obstacle.width) &&
      decide (characterBox.x + characterBox.width > obstacle.x) &&
      decide (characterBox.y < obstacle.y + obstacle.height) &&
      decide (characterBox.y + characterBox.height > obstacle.y))

/-- checkPortalZone from PixelParkLanding.tsx: strict point-in-rectangle. -/
def checkPortalZone (x y : Int) : Bool :=
  decide (x > portalZone.x) && decide (x < portalZone.x + portalZone.width) &&
  decide (y > portalZone.y) && decide (y < portalZone.y + portalZone.height)

/-- The set of movement keys currently held. -/
structure Keys where
  up : Bool
  down : Bool
  left : Bool
  right : Bool
  deriving DecidableEq

inductive Direction where
  | left
  | right
  | up
  | down
  deriving DecidableEq

/-- The x coordinate of the candidate position after the sequential
key checks of moveCharacter (speed 2; left subtracts, right adds). -/
def candX (keys : Keys) (x : Int) : Int :=
  let x1 := if keys.left then x - 2 else x
  if keys.right then x1 + 2 else x1

/-- The y coordinate of the candidate position after the sequential
key checks of moveCharacter (speed 2; up subtracts, down adds). -/
def candY (keys : Keys) (y : Int) : Int :=
  let y1 := if keys.up then y - 2 else y
  if keys.down then y1 + 2 else y1

/-- The moved flag of moveCharacter: some movement key is held. -/
def keysMoved (keys : Keys) : Bool :=
  keys.up || keys.down || keys.left || keys.right

/-- The facing direction after the sequential key checks (the later
checks overwrite, so right wins over left over down over up). -/
def newDirection (keys : Keys) (dir : Direction) : Direction :=
  let d1 := if keys.up then Direction.up else dir
  let d2 := if keys.down then Direction.down else d1
  let d3 := if keys.left then Direction.left else d2
  if keys.right then Direction.right else d3

/-- The scene state touched by one movement tick. -/
structure SceneState where
  characterPos : Position
  direction : Direction
  isWalking : Bool
  showPrompt : Bool
  deriving DecidableEq

/-- moveCharacter from PixelParkLanding.tsx, one tick: on an accepted
move the position, direction and walking flag update; on a rejected
move only the walking flag drops; the prompt flag is recomputed from
the candidate point whenever some key was held, and left alone
otherwise. -/
def moveCharacter (obs : List Rect) (keys : Keys) (st : SceneState) : SceneState :=
  let newX := candX keys st.characterPos.x
  let newY := candY keys st.characterPos.y
  if keysMoved keys then
    if !(checkCollision obs newX newY) then
      { characterPos := { x := newX, y := newY },
        direction := newDirection keys st.direction,
        isWalking := true,
        showPrompt := checkPortalZone newX newY }
    else
      { st with isWalking := false, showPrompt := checkPortalZone newX newY }
  else
    { st with isWalking := false }

/-! ### Quiz fetching and view selection (QuizViewer.tsx, quiz component) -/

/-- The outcome of the quiz fetch, as seen by fetchQuiz: either the
promise rejects (network or JSON failure), or a JSON body arrives with
an optional error field and an optional questions list. -/
inductive FetchResult where
  | networkError : FetchResult
  | jsonResponse : Option String → Option (List QuizQuestion) → FetchResult

/-- Truthiness of the optional error field of the response body, as
tested by the if statement in fetchQuiz. -/
def jsTruthy (s : Option String) : Bool :=
  match s with
  | none => false
  | some str => !(str == "")

/-- The quiz-viewer state set by fetchQuiz. -/
structure QuizViewState where
  questions : List QuizQuestion
  loading : Bool
  error : Option String
  deriving DecidableEq

/-- fetchQuiz from QuizViewer.tsx: a rejected fetch or a truthy error
field sets the error message; otherwise questions becomes
data.questions with a missing field defaulting to the empty list, and
the error state stays clear. -/
def fetchQuiz (r : FetchResult) : QuizViewState :=
  match r with
  | .networkError =>
    { questions := [], loading := false, error := some "Failed to load quiz." }
  | .jsonResponse err qs =>
    if jsTruthy err then
      { questions := [], loading := false, error := some "Failed to load quiz." }
    else
      { questions := qs.getD [], loading := false, error := none }

inductive QuizRender where
  | loadingView
  | errorView
  | resultsView
  | questionView
  deriving DecidableEq

/-- The view selection of the QuizViewer component body: loading, then
error, then results or the question view. The question view reads
questions[currentQuestionIndex].question; when that element does not
exist the dereference of undefined crashes, modelled as none. -/
def renderQuiz (st : QuizViewState) (currentQuestionIndex : Nat) (showResults : Bool) :
    Option QuizRender :=
  if st.loading then some .loadingView
  else if st.error.isSome then some .errorView
  else if showResults then some .resultsView
  else
    match st.questions.get? currentQuestionIndex with
    | some _ => some .questionView
    | none => none

/-! ### Concrete fixtures used by witnesses -/

def cL1 : Lesson :=
  { id := "l1", number := 1, title := "Welcome", duration := "5m", contentType := "video" }

def cL2 : Lesson :=
  { id := "l2", number := 2, title := "Values", duration := "8m", contentType := "text" }

def cL3 : Lesson :=
  { id := "l3", number := 3, title := "Tools", duration := "6m", contentType := "video" }

def cQuiz : Quiz :=
  { id := "q1", title := "Module 1 Quiz", passingScore := 80, required := true }

def cModule : Module :=
  { id := "m1", number := 1, title := "Basics", description := "", icon := "",
    lessons := [cL1, cL2, cL3], quiz := some cQuiz }

def cPhases : List Phase :=
  [ { id := "p1", number := 1, title := "Phase 1", description := "", modules := [cModule] } ]

def cEmptyModule : Module :=
  { id := "m0", number := 0, title := "Empty", description := "", icon := "",
    lessons := [], quiz := none }

def cQ1 : QuizQuestion :=
  { id := "qq1", number := 1, question := "q1", optionA := "a", optionB := "b",
    optionC := "c", optionD := "d", correctAnswer := "A" }

def cQ2 : QuizQuestion :=
  { id := "qq2", number := 2, question := "q2", optionA := "a", optionB := "b",
    optionC := "c", optionD := "d", correctAnswer := "B" }

def cQ3 : QuizQuestion :=
  { id := "qq3", number := 3, question := "q3", optionA := "a", optionB := "b",
    optionC := "c", optionD := "d", correctAnswer := "C" }

def cQ4 : QuizQuestion :=
  { id := "qq4", number := 4, question := "q4", optionA := "a", optionB := "b",
    optionC := "c", optionD := "d", correctAnswer := "D" }

def cQuestions : List QuizQuestion := [cQ1, cQ2, cQ3, cQ4]

def cAnswers : List (String × String) :=
  [("qq1", "A"), ("qq2", "B"), ("qq3", "C"), ("qq4", "A")]

/-! ### Helper lemmas -/

theorem foldl_count {α : Type} (p : α → Bool) (l : List α) (n : Nat) :
    l.foldl (fun c x => if p x then c + 1 else c) n = n + l.countP p := by
  induction l generalizing n with
  | nil => simp
  | cons a l ih =>
    simp only [List.foldl_cons, List.countP_cons, ih]
    by_cases h : p a = true <;> simp [h] <;> omega

theorem findIdxO_eq_none_iff {α : Type} (p : α → Bool) (l : List α) :
    findIdxO p l = none ↔ ∀ a ∈ l, p a = false := by
  induction l with
  | nil => simp [findIdxO]
  | cons a l ih =>
    by_cases h : p a = true <;> simp [findIdxO, h, ih, Option.map_eq_none']

theorem findIdxO_some {α : Type} (p : α → Bool) (l : List α) (i : Nat)
    (h : findIdxO p l = some i) : ∃ hi : i < l.length, p (l.get ⟨i, hi⟩) = true := by
  induction l generalizing i with
  | nil => simp [findIdxO] at h
  | cons a l ih =>
    by_cases ha : p a = true
    · simp only [findIdxO, ha, if_true] at h
      obtain rfl : (0 : Nat) = i := Option.some.inj h
      exact ⟨Nat.succ_pos _, ha⟩
    · simp only [findIdxO, ha, if_false, Bool.false_eq_true] at h
      cases hfi : findIdxO p l with
      | none => rw [hfi] at h; simp at h
      | some j =>
        rw [hfi] at h
        simp only [Option.map_some'] at h
        obtain rfl : j + 1 = i := Option.some.inj h
        obtain ⟨hj, hpj⟩ := ih j hfi
        exact ⟨Nat.succ_lt_succ hj, hpj⟩

theorem findIdxO_get {α β : Type} [BEq β] [LawfulBEq β] (f : α → β) (l : List α) (i : Nat)
    (hi : i < l.length) (hnd : (l.map f).Nodup) :
    findIdxO (fun a => f a == f (l.get ⟨i, hi⟩)) l = some i := by
  induction l generalizing i with
  | nil => exact absurd hi (by simp)
  | cons x xs ih =>
    cases i with
    | zero => simp [findIdxO]
    | succ j =>
      have hj : j < xs.length := Nat.lt_of_succ_lt_succ hi
      have hget : (x :: xs).get ⟨j + 1, hi⟩ = xs.get ⟨j, hj⟩ := rfl
      have hx : f x ∉ xs.map f := (List.nodup_cons.mp hnd).1
      have hnd' : (xs.map f).Nodup := (List.nodup_cons.mp hnd).2
      have hmem : f (xs.get ⟨j, hj⟩) ∈ xs.map f := List.mem_map_of_mem f (xs.get_mem j hj)
      have hne : (f x == f (xs.get ⟨j, hj⟩)) = false := by
        refine beq_eq_false_iff_ne.mpr ?_
        intro hEq
        exact hx (hEq ▸ hmem)
      have hrec := ih j hj hnd'
      rw [hget]
      simp only [List.get_eq_getElem] at hne hrec
      simp [findIdxO, hne, hrec]

theorem moduleStep_eq (cl cq : List String) (acc : Nat × Nat) (m : Module) :
    moduleStep cl cq acc m = (acc.1 + moduleTotal m, acc.2 + moduleDone cl cq m) := by
  cases hq : m.quiz with
  | none =>
    simp only [moduleStep, moduleTotal, moduleDone, hq, foldl_count, Prod.mk.injEq]
    omega
  | some qz =>
    by_cases hc : cq.contains qz.id = true <;>
      simp only [moduleStep, moduleTotal, moduleDone, hq, foldl_count, hc, if_true, if_false,
        Bool.false_eq_true, Prod.mk.injEq] <;>
      omega

theorem foldl_moduleStep (cl cq : List String) (ms : List Module) (acc : Nat × Nat) :
    ms.foldl (moduleStep cl cq) acc =
      (acc.1 + (ms.map moduleTotal).sum, acc.2 + (ms.map (moduleDone cl cq)).sum) := by
  induction ms generalizing acc with
  | nil => simp
  | cons m ms ih =>
    simp only [List.foldl_cons, ih, moduleStep_eq, List.map_cons, List.sum_cons, Prod.mk.injEq]
    omega

theorem foldl_phases (cl cq : List String) (phases : List Phase) (acc : Nat × Nat) :
    phases.foldl (fun a phase => phase.modules.foldl (moduleStep cl cq) a) acc =
      (acc.1 + totalCount phases, acc.2 + doneCount cl cq phases) := by
  induction phases generalizing acc with
  | nil => simp [totalCount, doneCount]
  | cons ph ps ih =>
    rw [List.foldl_cons, ih]
    rw [foldl_moduleStep]
    simp only [totalCount, doneCount, List.map_cons, List.sum_cons, Prod.mk.injEq]
    omega

theorem getTotalProgress_eq (cl cq : List String) (phases : List Phase) :
    getTotalProgress cl cq phases =
      if totalCount phases = 0 then 0
      else ((doneCount cl cq phases : ℚ) / (totalCount phases : ℚ)) * 100 := by
  unfold getTotalProgress
  rw [foldl_phases]
  by_cases h : totalCount phases = 0
  · simp [h]
  · have hpos : 0 < totalCount phases := Nat.pos_of_ne_zero h
    simp [h, hpos]

theorem overlapB_eq (o : Rect) (x y : Int) :
    (decide ((x - 8 : Int) < o.x + o.width) && decide ((x - 8 : Int) + 16 > o.x) &&
     decide ((y - 16 : Int) < o.y + o.height) && decide ((y - 16 : Int) + 24 > o.y)) = true ↔
    (x - 8 < o.x + o.width ∧ o.x < x + 8 ∧ y - 16 < o.y + o.height ∧ o.y < y + 8) := by
  simp only [Bool.and_eq_true, decide_eq_true_eq]
  omega

theorem checkCollision_eq_false_iff (obs : List Rect) (x y : Int) :
    checkCollision obs x y = false ↔
      ((∀ o ∈ obs, ¬(x - 8 < o.x + o.width ∧ o.x < x + 8 ∧ y - 16 < o.y + o.height ∧ o.y < y + 8))
       ∧ 20 ≤ x ∧ x ≤ 606 ∧ 100 ≤ y ∧ y ≤ 240) := by
  simp only [checkCollision]
  by_cases hb : x < 20 ∨ x > 606 ∨ y < 100 ∨ y > 240
  · rw [if_pos hb]
    constructor
    · intro h
      exact absurd h (by decide)
    · rintro ⟨-, h20, h606, h100, h240⟩
      exfalso
      omega
  · rw [if_neg hb]
    push_neg at hb
    obtain ⟨h1, h2, h3, h4⟩ := hb
    rw [List.any_eq_false]
    constructor
    · intro h
      refine ⟨fun o ho hc => (h o ho) ((overlapB_eq o x y).mpr hc), h1, h2, h3, h4⟩
    · rintro ⟨hobs, -, -, -, -⟩
      intro o ho hp
      exact hobs o ho ((overlapB_eq o x y).mp hp)

theorem moveCharacter_isWalking (obs : List Rect) (keys : Keys) (st : SceneState) :
    (moveCharacter obs keys st).isWalking =
      (keysMoved keys &&
        !(checkCollision obs (candX keys st.characterPos.x) (candY keys st.characterPos.y))) := by
  unfold moveCharacter
  by_cases hm : keysMoved keys = true
  · by_cases hc :
        checkCollision obs (candX keys st.characterPos.x) (candY keys st.characterPos.y) = true
    · simp [hm, hc]
    · simp [hm, hc]
  · simp [hm]

theorem checkPortalZone_iff (x y : Int) :
    checkPortalZone x y = true ↔ (280 < x ∧ x < 346 ∧ 180 < y ∧ y < 260) := by
  simp only [checkPortalZone, portalZone, Bool.and_eq_true, decide_eq_true_eq]
  omega

/-! ### Claim theorems -/

/-- C1: for a lesson occurring at position i of the module's ordered lesson
list (lesson ids duplicate-free, so that the occurrence and its predecessor
are well defined), isLessonUnlocked returns true exactly when the lesson is
the first element (i = 0) or the immediately preceding lesson's id is in
the completed-lessons set; no other lesson's completion status enters the
result. -/
theorem isLessonUnlocked_spec (completed : List String) (m : Module) (i : Nat) (lesson : Lesson)
    (hget : m.lessons.get? i = some lesson)
    (hnd : (m.lessons.map Lesson.id).Nodup) :
    isLessonUnlocked completed lesson m =
      some (decide (i = 0) ||
        (m.lessons.get? (i - 1)).elim false (fun prev => completed.contains prev.id)) := by
  obtain ⟨hi, hlesson⟩ := List.get?_eq_some.mp hget
  subst hlesson
  unfold isLessonUnlocked
  rw [findIdxO_get Lesson.id m.lessons i hi hnd]
  cases i with
  | zero => simp
  | succ j =>
    have hj : j < m.lessons.length := Nat.lt_of_succ_lt hi
    simp [List.get?_eq_get hj, List.getElem?_eq_getElem hj]

/-- C1 witness: in the three-lesson module with only the first lesson
completed, the second lesson evaluates per the theorem (to unlocked). -/
theorem isLessonUnlocked_spec_witness :
    isLessonUnlocked ["l1"] cL2 cModule =
      some (decide ((1 : Nat) = 0) ||
        (cModule.lessons.get? (1 - 1)).elim false
          (fun prev => (["l1"] : List String).contains prev.id)) :=
  isLessonUnlocked_spec ["l1"] cModule 1 cL2 (by decide) (by decide)

/-- C10: isLessonUnlocked crashes (modelled as none) exactly when the
lesson's id does not occur in the module's lesson list; whenever the id
occurs, the predecessor lookup is in bounds and a Boolean is produced. -/
theorem isLessonUnlocked_none_iff (completed : List String) (lesson : Lesson) (m : Module) :
    isLessonUnlocked completed lesson m = none ↔ lesson.id ∉ m.lessons.map Lesson.id := by
  unfold isLessonUnlocked
  cases hfind : findIdxO (fun l => l.id == lesson.id) m.lessons with
  | none =>
    have hall := (findIdxO_eq_none_iff _ _).mp hfind
    constructor
    · intro _ hmem
      obtain ⟨a, ha, haid⟩ := List.mem_map.mp hmem
      have hfa := hall a ha
      rw [haid] at hfa
      simp at hfa
    · intro _
      rfl
  | some i =>
    obtain ⟨hi, hp⟩ := findIdxO_some _ _ _ hfind
    have hmem : lesson.id ∈ m.lessons.map Lesson.id :=
      List.mem_map.mpr ⟨m.lessons.get ⟨i, hi⟩, m.lessons.get_mem i hi, eq_of_beq hp⟩
    simp only [hmem, not_true_eq_false, iff_false]
    cases i with
    | zero => simp
    | succ j =>
      have hj : j < m.lessons.length := Nat.lt_of_succ_lt hi
      simp [List.get?_eq_get hj, List.getElem?_eq_getElem hj]

/-- C6: isQuizUnlocked is true exactly when every lesson id of the module
is in the completed-lessons set; a module with an empty lesson list is
vacuously unlocked. -/
theorem isQuizUnlocked_spec (completed : List String) (m : Module) :
    (isQuizUnlocked completed m = true ↔
      ∀ lesson ∈ m.lessons, completed.contains lesson.id = true)
    ∧ (m.lessons = [] → isQuizUnlocked completed m = true) := by
  constructor
  · unfold isQuizUnlocked
    exact List.all_eq_true
  · intro h
    simp [isQuizUnlocked, h]

/-- C6 witness: a module with zero lessons is unlocked under the empty
completed set. -/
theorem isQuizUnlocked_spec_witness : isQuizUnlocked [] cEmptyModule = true :=
  (isQuizUnlocked_spec [] cEmptyModule).2 rfl

/-- C5: a quiz outcome with passed = false leaves both completion sets
exactly unchanged, and the quiz id is in the completed-quizzes set after
the call exactly when passed is true or it was already there. -/
theorem handleQuizComplete_spec (st : PortalState) (q : String) :
    (handleQuizComplete st q false).completedLessons = st.completedLessons
    ∧ (handleQuizComplete st q false).completedQuizzes = st.completedQuizzes
    ∧ ∀ passed : Bool,
        (q ∈ (handleQuizComplete st q passed).completedQuizzes ↔
          passed = true ∨ q ∈ st.completedQuizzes) := by
  refine ⟨rfl, rfl, ?_⟩
  intro passed
  cases passed with
  | false => simp [handleQuizComplete]
  | true =>
    simp only [handleQuizComplete, if_true, true_or, iff_true]
    by_cases hm : q ∈ st.completedQuizzes
    · simp [setAdd, hm]
    · simp [setAdd, hm]

/-- C3: for a non-empty question list with a complete answer map, the
submitted score is 100 times the number of correctly answered questions
divided by the total, and handleFinish reports passed exactly when that
score is at least 70 (the fixed threshold; the per-quiz passingScore
field is never an input of handleSubmit or handleFinish). -/
theorem quizScoring_spec (questions : List QuizQuestion) (answers : List (String × String))
    (hne : questions ≠ [])
    (hcomplete : ∀ q ∈ questions, (answers.lookup q.id).isSome = true) :
    handleSubmit questions answers =
      100 * (questions.countP (fun q => answers.lookup q.id == some q.correctAnswer) : ℚ) /
        (questions.length : ℚ)
    ∧ (handleFinish (handleSubmit questions answers) = true ↔
        (70 : ℚ) ≤
          100 * (questions.countP (fun q => answers.lookup q.id == some q.correctAnswer) : ℚ) /
            (questions.length : ℚ)) := by
  have hcc : countCorrect questions answers =
      questions.countP (fun q => answers.lookup q.id == some q.correctAnswer) := by
    unfold countCorrect
    rw [foldl_count, Nat.zero_add]
  have h1 : handleSubmit questions answers =
      100 * (questions.countP (fun q => answers.lookup q.id == some q.correctAnswer) : ℚ) /
        (questions.length : ℚ) := by
    unfold handleSubmit
    rw [hcc]
    ring
  refine ⟨h1, ?_⟩
  unfold handleFinish
  rw [h1]
  simp

/-- C3 witness: the four-question fixture with three correct answers
scores 75 and passes. -/
theorem quizScoring_spec_witness :
    handleSubmit cQuestions cAnswers =
      100 * (cQuestions.countP (fun q => cAnswers.lookup q.id == some q.correctAnswer) : ℚ) /
        (cQuestions.length : ℚ)
    ∧ (handleFinish (handleSubmit cQuestions cAnswers) = true ↔
        (70 : ℚ) ≤
          100 * (cQuestions.countP (fun q => cAnswers.lookup q.id == some q.correctAnswer) : ℚ) /
            (cQuestions.length : ℚ)) :=
  quizScoring_spec cQuestions cAnswers (by decide) (by decide)

/-- C4: getTotalProgress equals 100 times the completed-item count over
the total item count (lessons plus one per present quiz, summed over all
modules of all phases), and is exactly 0 when the total is 0, in
particular on the empty phase list; the result is a total rational-valued
function, so no NaN or error arises. -/
theorem getTotalProgress_spec (cl cq : List String) (phases : List Phase) :
    (getTotalProgress cl cq phases =
      if totalCount phases = 0 then 0
      else 100 * (doneCount cl cq phases : ℚ) / (totalCount phases : ℚ))
    ∧ getTotalProgress cl cq [] = 0 := by
  constructor
  · rw [getTotalProgress_eq]
    by_cases h : totalCount phases = 0
    · simp [h]
    · simp only [h, if_false]
      ring
  · rw [getTotalProgress_eq]
    simp [totalCount]

/-- C7: for a fixed curriculum tree, getTotalProgress is monotone in both
completion sets: enlarging them (element-wise) never decreases the
progress value, so progress is non-decreasing along any completion
sequence. -/
theorem getTotalProgress_mono (cl cl' cq cq' : List String) (phases : List Phase)
    (hl : ∀ x ∈ cl, x ∈ cl') (hq : ∀ x ∈ cq, x ∈ cq') :
    getTotalProgress cl cq phases ≤ getTotalProgress cl' cq' phases := by
  have hdone : doneCount cl cq phases ≤ doneCount cl' cq' phases := by
    unfold doneCount
    apply List.sum_le_sum
    intro ph _
    apply List.sum_le_sum
    intro m _
    unfold moduleDone
    have h1 : m.lessons.countP (fun lesson => cl.contains lesson.id) ≤
        m.lessons.countP (fun lesson => cl'.contains lesson.id) := by
      apply List.countP_mono_left
      intro a _ ha
      have hmem : a.id ∈ cl := by simpa using ha
      simpa using hl _ hmem
    have h2 : (match m.quiz with
        | some qz => if cq.contains qz.id then 1 else 0
        | none => 0) ≤
        (match m.quiz with
        | some qz => if cq'.contains qz.id then 1 else 0
        | none => 0) := by
      cases m.quiz with
      | none => exact Nat.le_refl 0
      | some qz =>
        by_cases hc : qz.id ∈ cq
        · have hc' : qz.id ∈ cq' := hq _ hc
          simp [hc, hc']
        · by_cases hc' : qz.id ∈ cq' <;> simp [hc, hc']
    omega
  rw [getTotalProgress_eq, getTotalProgress_eq]
  by_cases h : totalCount phases = 0
  · simp [h]
  · simp only [h, if_false]
    have ht : (0 : ℚ) < (totalCount phases : ℚ) := by
      exact_mod_cast Nat.pos_of_ne_zero h
    have hd : (doneCount cl cq phases : ℚ) ≤ (doneCount cl' cq' phases : ℚ) := by
      exact_mod_cast hdone
    gcongr

/-- C7 witness: on the concrete one-module curriculum, completing one more
lesson and the quiz does not decrease progress. -/
theorem getTotalProgress_mono_witness :
    getTotalProgress ["l1"] [] cPhases ≤ getTotalProgress ["l1", "l2"] ["q1"] cPhases :=
  getTotalProgress_mono ["l1"] ["l1", "l2"] [] ["q1"] cPhases (by decide) (by decide)

/-- C2: a candidate point is accepted by the collision test exactly when
the actor box from x-8 to x+8 and from y-16 to y+8 overlaps (strictly on
both axes) no obstacle rectangle and the raw point lies within the
permitted bounds 20..606 by 100..240; and the tick commits a move (the
walking flag) exactly when some key is held and that test accepts the
candidate position. -/
theorem moveTick_accept_spec (obs : List Rect) (x y : Int) (keys : Keys) (st : SceneState) :
    (checkCollision obs x y = false ↔
      ((∀ o ∈ obs,
          ¬(x - 8 < o.x + o.width ∧ o.x < x + 8 ∧ y - 16 < o.y + o.height ∧ o.y < y + 8))
       ∧ 20 ≤ x ∧ x ≤ 606 ∧ 100 ≤ y ∧ y ≤ 240))
    ∧ ((moveCharacter obs keys st).isWalking = true ↔
        (keysMoved keys = true ∧
         checkCollision obs (candX keys st.characterPos.x) (candY keys st.characterPos.y)
           = false)) := by
  constructor
  · exact checkCollision_eq_false_iff obs x y
  · rw [moveCharacter_isWalking]
    simp [Bool.and_eq_true]

/-- C8 counterexample: at committed position (280, 206) with only the
right key held, the candidate (282, 206) collides with a bush and is
rejected, yet the prompt flag becomes true even though the strict
point-in-zone test at the unchanged committed position is false. -/
theorem moveCharacter_prompt_cex :
    ((moveCharacter obstacles { up := false, down := false, left := false, right := true }
        { characterPos := { x := 280, y := 206 }, direction := Direction.down,
          isWalking := false, showPrompt := false }).showPrompt = true)
    ∧ checkPortalZone 280 206 = false := by
  exact ⟨by decide, by decide⟩

/-- C8 amended: after a tick in which some movement key is held the prompt
flag is set by the strict point-in-rectangle test of the candidate
position against the trigger zone (whether or not the move was accepted);
when no movement key is held the flag keeps its previous value. -/
theorem moveCharacter_prompt_spec (obs : List Rect) (keys : Keys) (st : SceneState) :
    (moveCharacter obs keys st).showPrompt = true ↔
      ((keysMoved keys = true ∧
        (280 < candX keys st.characterPos.x ∧ candX keys st.characterPos.x < 346 ∧
         180 < candY keys st.characterPos.y ∧ candY keys st.characterPos.y < 260))
       ∨ (keysMoved keys = false ∧ st.showPrompt = true)) := by
  unfold moveCharacter
  by_cases hm : keysMoved keys = true
  · by_cases hc :
        checkCollision obs (candX keys st.characterPos.x) (candY keys st.characterPos.y) = true
    · simp [hm, hc, checkPortalZone_iff]
    · simp [hm, hc, checkPortalZone_iff]
  · simp [hm]

/-- C9: a well-formed response with no error field and an empty (or
missing) questions list does not enter the failed-to-load state: the
error flag stays clear and the question view dereferences the
non-existent first question (modelled as none), diverging from the
claimed collapse of all three failure classes into one error state. -/
theorem fetchQuiz_empty_questions :
    (fetchQuiz (FetchResult.jsonResponse none (some []))).error = none
    ∧ renderQuiz (fetchQuiz (FetchResult.jsonResponse none (some []))) 0 false = none
    ∧ (fetchQuiz FetchResult.networkError).error = some "Failed to load quiz."
    ∧ (fetchQuiz (FetchResult.jsonResponse (some "boom") none)).error
        = some "Failed to load quiz." := by
  exact ⟨rfl, rfl, rfl, rfl⟩

end Onboarding
